import Mathlib

/-!
Shallow embedding of the `stock_analysis` repository
(`src/xbrl_client.py` and `src/financial_classes.py`) and proofs about it.

Modelling conventions:
* Python `dict.get(key)` results are `Option` values; `dict.get(key, d)` is `Option.getD`.
* `datetime` instants are `Int` seconds; `timedelta(seconds = k)` is the integer `k`.
  `datetime.now()` is passed in explicitly as a `now : Int` argument; the several
  `now()` calls inside one operation are modelled as the same instant.
* The HTTP transport is passed in explicitly: a call that would hit the network takes
  an `Except String r` argument (`.error msg` = a `requests.exceptions.RequestException`
  of that message, `.ok` = the response that arrived).  A paging loop takes the list of
  successive transport outcomes, one per request issued, in order.
* Raised Python exceptions become explicit result constructors; `print` logging and the
  `to_csv` side writes are external I/O and are not modelled.
-/

set_option maxRecDepth 8000

namespace StockAnalysis

/-! ## Token session (`XBRLClient._request_new_token`, `_ensure_token_is_valid`) -/

/-- The JSON object returned by the OAuth token endpoint: `token_data.get("access_token")`
and `token_data.get("expires_in", 3600)` are the only fields read. -/
structure TokenResponse where
  accessToken : Option String
  expiresIn : Option Int
deriving DecidableEq, Repr

/-- The token-lifecycle fields of `XBRLClient`: `self.access_token` and
`self.token_expiry_time` (both `None` before the first refresh). -/
structure TokenState where
  accessToken : Option String
  tokenExpiryTime : Option Int
deriving DecidableEq, Repr

/-- `XBRLClient._request_new_token`, success path: stores
`token_data.get("access_token")` and sets
`token_expiry_time = datetime.now() + timedelta(seconds = expires_in - 300)`
with `expires_in = token_data.get("expires_in", 3600)`.
(The session `Authorization` header update is external I/O.) -/
def request_new_token (now : Int) (resp : TokenResponse) : TokenState :=
  { accessToken := resp.accessToken
    tokenExpiryTime := some (now + (resp.expiresIn.getD 3600 - 300)) }

/-- Python truthiness of `self.access_token` negated: `not self.access_token`
is true for `None` and for the empty string. -/
def token_falsy : Option String → Bool
  | none => true
  | some t => t == ""

/-- The refresh condition of `_ensure_token_is_valid`:
`not self.access_token or datetime.now() >= self.token_expiry_time`.
(When the token is set but the expiry is `None`, the Python comparison would raise a
`TypeError`; that state is unreachable because both fields are always set together.
The model treats it as a refresh.) -/
def token_refresh_needed (s : TokenState) (now : Int) : Bool :=
  token_falsy s.accessToken ||
    (match s.tokenExpiryTime with
     | none => true
     | some e => e ≤ now)

/-- `XBRLClient._ensure_token_is_valid`, with the token endpoint answer `resp`
that a refresh, if issued, would receive.  Returns the new state together with
the number of token requests issued (0 or 1). -/
def ensure_token_is_valid (s : TokenState) (now : Int) (resp : TokenResponse) :
    TokenState × Nat :=
  if token_refresh_needed s now then (request_new_token now resp, 1) else (s, 0)

/-! ## Gateway (`XBRLClient._handle_response`, `XBRLClient.query`) -/

/-- An HTTP response as `query`/`_handle_response` observe it: status code, reason
phrase, and the parsed JSON body (`none` when `response.json()` would raise a
`JSONDecodeError`).  JSON objects are flat string-to-string association lists;
only the `"error"` key is ever read. -/
structure HttpResponse where
  status : Nat
  reason : String
  jsonBody : Option (List (String × String))
deriving DecidableEq, Repr

/-- Outcome of `XBRLClient.query`: a returned JSON body, a raised `XBRLAPIError`
(with its `message`, `status_code` and `response_data` attributes), or a
`JSONDecodeError` escaping from `response.json()` on a success body. -/
inductive QueryOutcome where
  | ok (body : List (String × String))
  | apiError (message : String) (statusCode : Option Nat)
      (responseData : Option (List (String × String)))
  | jsonDecodeFailure
deriving DecidableEq, Repr

/-- The `"expired" in message.lower()` test of `_handle_response`:
`splitOn` yields at least two pieces exactly when the substring occurs. -/
def contains_expired (message : String) : Bool :=
  2 ≤ (message.toLower.splitOn "expired").length

/-- `XBRLClient._handle_response`.  Returns the outcome together with the number of
token refreshes its 401 branch performs (0 or 1). -/
def handle_response (r : HttpResponse) : QueryOutcome × Nat :=
  if 400 ≤ r.status then
    let error_data := r.jsonBody.getD [("error", "Could not parse error message from API.")]
    let message :=
      "API request failed with status " ++ toString r.status ++ ": " ++ r.reason ++
        (match error_data.lookup "error" with
         | some v => " - " ++ v
         | none => "")
    let refreshes := if r.status == 401 && contains_expired message then 1 else 0
    (.apiError message (some r.status) (some error_data), refreshes)
  else
    match r.jsonBody with
    | some body => (.ok body, 0)
    | none => (.jsonDecodeFailure, 0)

/-- The message of the `requests.exceptions.HTTPError` raised by
`response.raise_for_status()` for a 4xx/5xx status. -/
def raise_for_status_text (r : HttpResponse) (url : String) : String :=
  toString r.status ++
    (if r.status < 500 then " Client Error: " else " Server Error: ") ++
    r.reason ++ " for url: " ++ url

/-- `XBRLClient.query`, after `_ensure_token_is_valid`: issue the GET (whose transport
outcome is `transport`), call `response.raise_for_status()` and then
`self._handle_response(response)`, catching every `requests.exceptions.RequestException`
as `XBRLAPIError("Network or request error: ...")`.  `raise_for_status` raises exactly
for `400 ≤ status < 600`, and that `HTTPError` is caught by the same handler, so
`_handle_response` only ever sees such a response's branch when called directly.
The second component counts token refreshes performed while handling the response. -/
def query (transport : Except String HttpResponse) (url : String) : QueryOutcome × Nat :=
  match transport with
  | .error e => (.apiError ("Network or request error: " ++ e) none none, 0)
  | .ok r =>
    if 400 ≤ r.status ∧ r.status < 600 then
      (.apiError ("Network or request error: " ++ raise_for_status_text r url) none none, 0)
    else
      handle_response r

/-! ## Network resolver (`Report._find_financial_statement_network`) -/

/-- One row of the `network/search` answer: `x.get('network.id')` and
`x.get('network.role-description', '')` are the fields read. -/
structure NetworkCandidate where
  networkId : Option String
  roleDescription : Option String
deriving DecidableEq, Repr

/-- The sort key `len(x.get('network.role-description', ''))`. -/
def role_len (c : NetworkCandidate) : Nat :=
  (c.roleDescription.getD "").length

/-- One insertion step of a stable descending-by-`role_len` sort: an element already
in place stays in front of the inserted one exactly when its key is strictly larger,
so that equal keys keep their original relative order. -/
def insert_desc (c : NetworkCandidate) : List NetworkCandidate → List NetworkCandidate
  | [] => [c]
  | x :: xs => if role_len c < role_len x then x :: insert_desc c xs else c :: x :: xs

/-- `networks_data.sort(key=lambda x: len(...), reverse=True)`: Python `list.sort` is
stable, modelled by stable insertion sort. -/
def sort_desc_by_len (l : List NetworkCandidate) : List NetworkCandidate :=
  l.foldr insert_desc []

/-- `Report._find_financial_statement_network`.  `resp` is the gateway outcome of the
`network/search` query (`.ok` carries `response_data.get('data', [])`); any raised
exception (`.error`) is caught and turned into `None`.  For a statement type other
than `"Income Statement"` the function returns `None` without querying. -/
def find_financial_statement_network (statement_type : String)
    (resp : Except String (List NetworkCandidate)) : Option String :=
  if statement_type ≠ "Income Statement" then none
  else
    match resp with
    | .error _ => none
    | .ok networks_data =>
      match sort_desc_by_len networks_data with
      | [] => none
      | first :: _ => first.networkId

/-! ## Concept loader (`Report._load_concepts_and_relationships`) -/

/-- One relationship row returned by `relationship/search`, with the fields the
pipeline reads downstream (`relationship.target-concept-id`, names, namespace,
preferred label, tree depth and tree sequence). -/
structure Concept where
  targetConceptId : Nat
  sourceName : Option String
  targetNamespace : Option String
  preferredLabel : Option String
  treeDepth : Nat
  treeSequence : Nat
  targetName : Option String
deriving DecidableEq, Repr

/-- `Report._load_concepts_and_relationships`: returns
`response_data.get('data', [])`, and `[]` when the gateway raised. -/
def load_concepts_and_relationships (resp : Except String (List Concept)) : List Concept :=
  match resp with
  | .error _ => []
  | .ok data => data

/-! ## Fact paginator (the `while True` loop of `Report.load_income_statement_data`) -/

/-- `page_size = 100`. -/
def page_size : Nat := 100

/-- The fact-paging loop, generic in the row type.  `responses` lists the successive
gateway outcomes, one per request the loop issues; the `Nat` argument is the current
`offset`.  Returns the accumulated rows (`statement.add_facts`) and the list of
offsets actually queried.  Per iteration: a raised exception breaks the loop
(partial rows kept); an empty `data` breaks; a page shorter than `page_size` is
added and breaks; otherwise the page is added, `offset += page_size`, continue.
An exhausted `responses` list ends the recursion with no further call. -/
def load_facts_loop {α : Type} :
    List (Except String (List α)) → Nat → List α × List Nat
  | [], _ => ([], [])
  | r :: rest, offset =>
    match r with
    | .error _ => ([], [offset])
    | .ok facts_data =>
      if facts_data.isEmpty then ([], [offset])
      else if facts_data.length < page_size then (facts_data, [offset])
      else
        let next := load_facts_loop rest (offset + page_size)
        (facts_data ++ next.1, offset :: next.2)

/-- The `fact_fields` list of `Report.load_income_statement_data`, verbatim. -/
def fact_fields : List String :=
  ["fact.value", "concept.id.sort(ASC)", "concept.is-base", "concept.local-name",
   "dimensions.count.sort(ASC)", "period.fiscal-year.sort(DESC)", "period.fiscal-period",
   "unit.local-name", "dimension.local-name", "member.local-name",
   "report.acceptedtimestamp.sort(DESC)"]

/-- The value of `params['fields']` built each iteration:
`','.join(fact_fields + [f',fact.offset({offset})'])` — note that the appended
element itself starts with a comma. -/
def fields_param (offset : Nat) : String :=
  String.intercalate "," (fact_fields ++ [",fact.offset(" ++ toString offset ++ ")"])

/-! ## Statement assembler (`FinancialStatement.combine_to_dataframe`) -/

/-- One fact row, with the columns requested by `fact_fields`;
`conceptId` is the `concept.id` column the merge joins on. -/
structure FactRow where
  value : Option String
  conceptId : Nat
  conceptIsBase : Option String
  conceptLocalName : Option String
  dimensionsCount : Option Nat
  fiscalYear : Option Int
  fiscalPeriod : Option String
  unitLocalName : Option String
  dimensionLocalName : Option String
  memberLocalName : Option String
  acceptedTimestamp : Option String
deriving DecidableEq, Repr

/-- Helper for `drop_duplicates`: keep each first occurrence, dropping any row equal
to one already seen. -/
def drop_duplicates_go [DecidableEq α] (seen : List α) : List α → List α
  | [] => []
  | x :: xs => if x ∈ seen then drop_duplicates_go seen xs
               else x :: drop_duplicates_go (x :: seen) xs

/-- `df_facts.drop_duplicates()`: remove rows equal (as full rows) to an earlier row,
keeping first occurrences in order. -/
def drop_duplicates [DecidableEq α] (l : List α) : List α :=
  drop_duplicates_go [] l

/-- The pandas left merge `df_concepts.merge(df, how='left', on='concept.id')` after
the rename `'relationship.target-concept-id' -> 'concept.id'`: every concept row is
paired with each fact row whose `concept.id` equals its (renamed) target concept id,
in left-then-right order, or with no fact (`none`) when there is no match. -/
def left_join (concepts : List Concept) (facts : List FactRow) :
    List (Concept × Option FactRow) :=
  concepts.flatMap fun c =>
    match facts.filter (fun f => f.conceptId == c.targetConceptId) with
    | [] => [(c, none)]
    | ms => ms.map fun f => (c, some f)

/-- The `sort_values(by=['relationship.tree-sequence', 'relationship.tree-depth'])`
order: ascending lexicographically on (tree sequence, tree depth), both taken from
the concept side of the merged row. -/
def row_le (a b : Concept × Option FactRow) : Bool :=
  a.1.treeSequence < b.1.treeSequence ||
    (a.1.treeSequence == b.1.treeSequence && a.1.treeDepth ≤ b.1.treeDepth)

/-- One insertion step of an insertion sort by `row_le`. -/
def insert_row (r : Concept × Option FactRow) :
    List (Concept × Option FactRow) → List (Concept × Option FactRow)
  | [] => [r]
  | x :: xs => if row_le r x then r :: x :: xs else x :: insert_row r xs

/-- Sorting of the merged rows by `row_le` (pandas `sort_values`; the claimized
property is only the resulting ascending order, not tie stability). -/
def sort_rows (l : List (Concept × Option FactRow)) : List (Concept × Option FactRow) :=
  l.foldr insert_row []

/-- `FinancialStatement.combine_to_dataframe`: empty concepts or facts yield an empty
result; otherwise rename, merge left on the concept id against the deduplicated
facts, and sort by (tree sequence, tree depth).  (The `to_csv` writes are external
I/O and are not modelled.) -/
def combine_to_dataframe (concepts : List Concept) (facts : List FactRow) :
    List (Concept × Option FactRow) :=
  if concepts.isEmpty || facts.isEmpty then []
  else sort_rows (left_join concepts (drop_duplicates facts))

/-! ## Report (`Report.load_income_statement_data`) -/

/-- `FinancialStatement`: statement type plus accumulated concept and fact rows. -/
structure FinancialStatement where
  statementType : String
  concepts : List Concept
  facts : List FactRow
deriving DecidableEq, Repr

/-- The fields of `Report` set in `__init__` from `data.get(...)`, plus the
`statements` dict (an insertion-ordered association list, as in Python). -/
structure Report where
  reportId : Option Nat
  dtsId : Option Nat
  fiscalYear : Option String
  filingDate : Option String
  periodEnd : Option String
  isMostCurrent : Option Bool
  entityName : Option String
  entryUrl : Option String
  statements : List (String × FinancialStatement)
deriving DecidableEq, Repr

/-- Python dict assignment `d[k] = v` on an insertion-ordered dict: overwrite in
place when the key exists, else append. -/
def dict_insert (k : String) (v : FinancialStatement)
    (m : List (String × FinancialStatement)) : List (String × FinancialStatement) :=
  if m.any (fun p => p.1 == k) then m.map (fun p => if p.1 == k then (k, v) else p)
  else m ++ [(k, v)]

/-- `Report.load_income_statement_data`.  The three gateway interactions are passed
in explicitly: `networkResp` for the network search, `conceptsResp` for the
relationship search, and `factResponses` for the successive fact pages.  Mirrors the
source: return unchanged if no (truthy) network id was found or no concepts loaded
(Python `if not network_id` is also true for an empty string id); otherwise build the
statement from all concepts plus the paged facts and store it under
`'Income Statement'`.  (The unused `concept_names` set of Step 3 has no effect and is
omitted.) -/
def load_income_statement_data (r : Report)
    (networkResp : Except String (List NetworkCandidate))
    (conceptsResp : Except String (List Concept))
    (factResponses : List (Except String (List FactRow))) : Report :=
  match find_financial_statement_network "Income Statement" networkResp with
  | none => r
  | some network_id =>
    if network_id = "" then r
    else
      let concepts_data := load_concepts_and_relationships conceptsResp
      if concepts_data.isEmpty then r
      else
        let statement : FinancialStatement :=
          { statementType := "Income Statement"
            concepts := concepts_data
            facts := (load_facts_loop factResponses 0).1 }
        { r with statements := dict_insert "Income Statement" statement r.statements }

/-! ## Theorems -/

/-- Helper: `_ensure_token_is_valid` issues no request and changes nothing when the
state holds a nonempty token whose recorded expiry lies strictly in the future. -/
theorem ensure_no_refresh (s : TokenState) (now : Int) (resp : TokenResponse)
    (t : String) (ht : s.accessToken = some t) (htne : t ≠ "")
    (e : Int) (he : s.tokenExpiryTime = some e) (hlt : now < e) :
    ensure_token_is_valid s now resp = (s, 0) := by
  have h1 : token_falsy s.accessToken = false := by
    rw [ht]; simp [token_falsy, htne]
  have h2 : token_refresh_needed s now = false := by
    unfold token_refresh_needed
    rw [h1, he]
    simp only [Bool.false_or, decide_eq_false_iff_not]
    omega
  simp [ensure_token_is_valid, h2]

/-- C1 (code_bug evidence): for an HTTP 404 response with JSON error body
`{"error": "bad query"}`, `query` raises the generic
`XBRLAPIError("Network or request error: ...")` with `status_code = None` and
`response_data = None`, because `response.raise_for_status()` raises an `HTTPError`
that the `RequestException` handler catches before `_handle_response` can run.
`_handle_response` itself, had it been reached, would have produced exactly the
`ApiError` the claim describes (shown for a parseable and an unparseable body);
a genuine transport failure does produce the wrapping `NetworkError`-style error. -/
theorem c1_error_response_loses_status_information :
    query (.ok ⟨404, "Not Found", some [("error", "bad query")]⟩) "u" =
      (.apiError "Network or request error: 404 Client Error: Not Found for url: u"
        none none, 0) ∧
    handle_response ⟨404, "Not Found", some [("error", "bad query")]⟩ =
      (.apiError "API request failed with status 404: Not Found - bad query" (some 404)
        (some [("error", "bad query")]), 0) ∧
    handle_response ⟨404, "Not Found", none⟩ =
      (.apiError
        "API request failed with status 404: Not Found - Could not parse error message from API."
        (some 404) (some [("error", "Could not parse error message from API.")]), 0) ∧
    query (.error "connection timeout") "u" =
      (.apiError "Network or request error: connection timeout" none none, 0) :=
  ⟨rfl, rfl, rfl, rfl⟩

/-- C2 (counterexample): a 401 response whose error body even says the token is
expired triggers zero token refreshes through `query`, not the claimed exactly one. -/
theorem c2_counterexample_401_refresh_count :
    (query (.ok ⟨401, "Unauthorized", some [("error", "access token expired")]⟩) "u").2
      = 0 ∧
    (query (.ok ⟨401, "Unauthorized", some [("error", "access token expired")]⟩) "u").2
      ≠ 1 :=
  ⟨rfl, by decide⟩

/-- C2 (amended): for every 401 response received through `query`, no token refresh
occurs, and the failure is still surfaced (not swallowed) as an `XBRLAPIError`
wrapping the `HTTPError` from `raise_for_status`, with no status code or response
data attached; the single-request shape of `query` means the original request is not
retried.  The refresh branch of `_handle_response` is unreachable here. -/
theorem c2_401_surfaces_error_without_refresh (r : HttpResponse) (url : String)
    (h : r.status = 401) :
    query (.ok r) url =
      (.apiError ("Network or request error: " ++ raise_for_status_text r url)
        none none, 0) := by
  simp [query, h]

/-- Witness for the amended C2 theorem at a concrete 401 response. -/
theorem c2_401_surfaces_error_without_refresh_witness :
    (⟨401, "Unauthorized", some [("error", "expired")]⟩ : HttpResponse).status = 401 ∧
    query (.ok ⟨401, "Unauthorized", some [("error", "expired")]⟩) "u" =
      (.apiError
        ("Network or request error: " ++
          raise_for_status_text ⟨401, "Unauthorized", some [("error", "expired")]⟩ "u")
        none none, 0) :=
  ⟨rfl, c2_401_surfaces_error_without_refresh _ "u" rfl⟩

/-- C3 (counterexample): a refresh whose token response carries
`expires_in = 200` leaves the recorded expiry 100 seconds in the past
(`1000 + (200 - 300) = 900`), so after `_ensure_token_is_valid` the current time is
not strictly before the expiry. -/
theorem c3_counterexample_short_expires_in :
    ((ensure_token_is_valid ⟨none, none⟩ 1000 ⟨some "t", some 200⟩).1).tokenExpiryTime
      = some 900 ∧
    ¬((1000 : Int) < 900) :=
  ⟨rfl, by decide⟩

/-- C3 (amended): provided any refresh the call performs receives a nonempty access
token and `expires_in > 300` (the default 3600 qualifies), then after
`_ensure_token_is_valid` a token exists and the current time is strictly before the
recorded expiry; and any later call made strictly before that expiry issues no token
request and leaves the state unchanged. -/
theorem c3_ensure_token_is_valid_amended (s : TokenState) (now : Int)
    (resp : TokenResponse)
    (hTok : ∃ t, resp.accessToken = some t ∧ t ≠ "")
    (hExp : 300 < resp.expiresIn.getD 3600) :
    (∃ t, ((ensure_token_is_valid s now resp).1).accessToken = some t ∧ t ≠ "") ∧
    (∃ e, ((ensure_token_is_valid s now resp).1).tokenExpiryTime = some e ∧ now < e) ∧
    (∀ (now2 : Int) (resp2 : TokenResponse) (e : Int),
      ((ensure_token_is_valid s now resp).1).tokenExpiryTime = some e → now2 < e →
      ensure_token_is_valid (ensure_token_is_valid s now resp).1 now2 resp2 =
        ((ensure_token_is_valid s now resp).1, 0)) := by
  obtain ⟨t, ht, htne⟩ := hTok
  by_cases hN : token_refresh_needed s now = true
  · have hs1 : (ensure_token_is_valid s now resp).1 = request_new_token now resp := by
      simp [ensure_token_is_valid, hN]
    rw [hs1]
    refine ⟨⟨t, ht, htne⟩, ⟨now + (resp.expiresIn.getD 3600 - 300), rfl, by omega⟩, ?_⟩
    intro now2 resp2 e he hlt
    exact ensure_no_refresh _ now2 resp2 t ht htne e he hlt
  · have hs1 : (ensure_token_is_valid s now resp).1 = s := by
      simp [ensure_token_is_valid, hN]
    rw [hs1]
    rw [Bool.not_eq_true] at hN
    have h1 : token_falsy s.accessToken = false := by
      rcases hor : token_falsy s.accessToken with _ | _
      · rfl
      · exfalso
        unfold token_refresh_needed at hN
        rw [hor] at hN
        simp at hN
    obtain ⟨u, hu, hune⟩ : ∃ u, s.accessToken = some u ∧ u ≠ "" := by
      rcases hacc : s.accessToken with _ | u
      · exfalso; rw [hacc] at h1; simp [token_falsy] at h1
      · refine ⟨u, rfl, ?_⟩
        rw [hacc] at h1
        simpa [token_falsy] using h1
    obtain ⟨e, he, hlt⟩ : ∃ e, s.tokenExpiryTime = some e ∧ now < e := by
      unfold token_refresh_needed at hN
      rw [h1] at hN
      rcases hexp : s.tokenExpiryTime with _ | e
      · exfalso; rw [hexp] at hN; simp at hN
      · refine ⟨e, rfl, ?_⟩
        rw [hexp] at hN
        simp only [Bool.false_or, decide_eq_false_iff_not] at hN
        omega
    refine ⟨⟨u, hu, hune⟩, ⟨e, he, hlt⟩, ?_⟩
    intro now2 resp2 e2 he2 hlt2
    exact ensure_no_refresh s now2 resp2 u hu hune e2 he2 hlt2

/-- Witness for the amended C3 theorem: fresh state, `now = 0`, token response
`{access_token: "tok", expires_in: 3600}`. -/
theorem c3_ensure_token_is_valid_amended_witness :
    (∃ t, (⟨some "tok", some 3600⟩ : TokenResponse).accessToken = some t ∧ t ≠ "") ∧
    300 < ((⟨some "tok", some 3600⟩ : TokenResponse).expiresIn.getD 3600) ∧
    (∃ e, ((ensure_token_is_valid ⟨none, none⟩ 0 ⟨some "tok", some 3600⟩).1).tokenExpiryTime
        = some e ∧ (0 : Int) < e) := by
  refine ⟨⟨"tok", rfl, by decide⟩, by decide, ?_⟩
  exact (c3_ensure_token_is_valid_amended ⟨none, none⟩ 0 ⟨some "tok", some 3600⟩
    ⟨"tok", rfl, by decide⟩ (by decide)).2.1

/-- C4: a successful `_request_new_token` stores the returned access token and records
the expiry as issuance time plus `expires_in` minus 300 seconds, with `expires_in`
defaulting to 3600 when the token response omits it; for `expires_in = 3600` (and
for the default) the expiry is exactly 3300 seconds after issuance. -/
theorem c4_request_new_token_expiry (now : Int) (resp : TokenResponse) :
    (request_new_token now resp).accessToken = resp.accessToken ∧
    (request_new_token now resp).tokenExpiryTime =
      some (now + (resp.expiresIn.getD 3600 - 300)) ∧
    (resp.expiresIn = some 3600 →
      (request_new_token now resp).tokenExpiryTime = some (now + 3300)) ∧
    (resp.expiresIn = none →
      (request_new_token now resp).tokenExpiryTime = some (now + 3300)) := by
  refine ⟨rfl, rfl, ?_, ?_⟩ <;> intro h <;> simp [request_new_token, h]

/-- Helper: on a transcript of successful pages containing a short page, the fact
loop queries the offsets `off, off + 100, ...` one per consumed page, consuming
pages up to and including the first short one, and accumulates exactly the rows of
the consumed pages. -/
theorem load_facts_loop_ok_spec {α : Type} (pages : List (List α)) :
    ∀ off : Nat, (∃ p ∈ pages, p.length < page_size) →
    ((load_facts_loop (pages.map Except.ok) off).2 =
      (List.range ((pages.takeWhile (fun p => page_size ≤ p.length)).length + 1)).map
        (fun i => off + i * page_size)) ∧
    ((load_facts_loop (pages.map Except.ok) off).1 =
      (pages.take ((pages.takeWhile (fun p => page_size ≤ p.length)).length + 1)).flatten) := by
  induction pages with
  | nil => intro off h; simp at h
  | cons p rest ih =>
    intro off h
    by_cases hfull : page_size ≤ p.length
    · have hrest : ∃ q ∈ rest, q.length < page_size := by
        rcases h with ⟨q, hq, hqs⟩
        rcases List.mem_cons.mp hq with rfl | hq2
        · omega
        · exact ⟨q, hq2, hqs⟩
      have hne : p.isEmpty = false := by
        rcases p with _ | ⟨a, as⟩
        · simp [page_size] at hfull
        · rfl
      have hnlt : ¬ (p.length < page_size) := by omega
      have ihoff := ih (off + page_size) hrest
      have hloop :
          load_facts_loop ((p :: rest).map Except.ok) off =
            (p ++ (load_facts_loop (rest.map Except.ok) (off + page_size)).1,
             off :: (load_facts_loop (rest.map Except.ok) (off + page_size)).2) := by
        simp [load_facts_loop, hne, hnlt]
      rw [List.takeWhile_cons_of_pos (by simpa using hfull)]
      constructor
      · have hsnd : (load_facts_loop ((p :: rest).map Except.ok) off).2 =
            off :: (load_facts_loop (rest.map Except.ok) (off + page_size)).2 := by
          rw [hloop]
        rw [hsnd, ihoff.1]
        simp only [List.length_cons]
        conv_rhs => rw [List.range_succ_eq_map]
        simp only [List.map_cons, List.map_map]
        congr 1
        refine List.map_congr_left ?_
        intro i _
        simp only [Function.comp_apply, Nat.succ_eq_add_one]
        ring
      · have hfst : (load_facts_loop ((p :: rest).map Except.ok) off).1 =
            p ++ (load_facts_loop (rest.map Except.ok) (off + page_size)).1 := by
          rw [hloop]
        rw [hfst, ihoff.2]
        simp only [List.length_cons]
        rw [List.take_succ_cons, List.flatten_cons]
    · have hwhile :
          List.takeWhile (fun q => page_size ≤ q.length) (p :: rest) = [] := by
        rw [List.takeWhile_cons_of_neg]
        simpa using hfull
      rw [hwhile]
      by_cases hemp : p.isEmpty
      · have hp : p = [] := by simpa using hemp
        have hloop : load_facts_loop ((p :: rest).map Except.ok) off = ([], [off]) := by
          simp [load_facts_loop, hemp]
        rw [hloop]
        constructor
        · rfl
        · subst hp
          rfl
      · have hloop : load_facts_loop ((p :: rest).map Except.ok) off = (p, [off]) := by
          have hne2 : p.isEmpty = false := by simpa using hemp
          simp [load_facts_loop, hne2, hfull]
        rw [hloop]
        constructor
        · rfl
        · simp

/-- C5: for every transcript of fact pages (with a terminating short page), the
paging loop queries offsets 0, 100, 200, ... advancing by the page size 100 per
full page, consumes pages up to and including the first page with fewer than 100
rows (an empty page included), and accumulates exactly the rows of the consumed
pages — one gateway call per consumed page. -/
theorem c5_fact_pagination {α : Type} (pages : List (List α))
    (h : ∃ p ∈ pages, p.length < page_size) :
    ((load_facts_loop (pages.map Except.ok) 0).2 =
      (List.range ((pages.takeWhile (fun p => page_size ≤ p.length)).length + 1)).map
        (fun i => i * page_size)) ∧
    ((load_facts_loop (pages.map Except.ok) 0).1 =
      (pages.take ((pages.takeWhile (fun p => page_size ≤ p.length)).length + 1)).flatten) := by
  have hmain := load_facts_loop_ok_spec pages 0 h
  simpa using hmain

/-- Witness for C5: pages of sizes [100, 100, 37] give three calls at offsets
0, 100, 200 and 237 accumulated rows; a first page of size 0 gives one call at
offset 0 and zero rows. -/
theorem c5_fact_pagination_witness :
    (∃ p ∈ [List.replicate 100 (0 : Nat), List.replicate 100 0, List.replicate 37 0],
        p.length < page_size) ∧
    ((load_facts_loop
        ([List.replicate 100 (0 : Nat), List.replicate 100 0,
          List.replicate 37 0].map Except.ok) 0).2 = [0, 100, 200]) ∧
    ((load_facts_loop
        ([List.replicate 100 (0 : Nat), List.replicate 100 0,
          List.replicate 37 0].map Except.ok) 0).1.length = 237) ∧
    ((load_facts_loop ([([] : List Nat)].map Except.ok) 0).2 = [0]) ∧
    ((load_facts_loop ([([] : List Nat)].map Except.ok) 0).1 = []) := by
  have h3 : ∃ p ∈ [List.replicate 100 (0 : Nat), List.replicate 100 0,
      List.replicate 37 0], p.length < page_size := by
    refine ⟨List.replicate 37 0, by simp, by simp [page_size]⟩
  have hmain := c5_fact_pagination _ h3
  have h0 : ∃ p ∈ [([] : List Nat)], p.length < page_size := by
    refine ⟨[], by simp, by simp [page_size]⟩
  have hzero := c5_fact_pagination _ h0
  refine ⟨h3, ?_, ?_, ?_, ?_⟩
  · rw [hmain.1]; rfl
  · rw [hmain.2]; rfl
  · rw [hzero.1]; rfl
  · rw [hzero.2]; rfl

/-- Helper: on a transcript of full pages followed by a gateway failure, the loop
stops at the failing call, keeping every row already accumulated and having queried
one offset per call made (the failing call included). -/
theorem load_facts_loop_error_spec {α : Type} (pages : List (List α)) :
    ∀ (off : Nat) (e : String) (rest : List (Except String (List α))),
    (∀ p ∈ pages, page_size ≤ p.length) →
    load_facts_loop (pages.map Except.ok ++ Except.error e :: rest) off =
      (pages.flatten, (List.range (pages.length + 1)).map (fun i => off + i * page_size)) := by
  induction pages with
  | nil =>
    intro off e rest _
    rfl
  | cons p ps ih =>
    intro off e rest hfull
    have hp : page_size ≤ p.length := hfull p (by simp)
    have hne : p.isEmpty = false := by
      rcases p with _ | ⟨a, as⟩
      · simp [page_size] at hp
      · rfl
    have hnlt : ¬ (p.length < page_size) := by omega
    have hrec := ih (off + page_size) e rest (fun q hq => hfull q (by simp [hq]))
    have hloop :
        load_facts_loop ((p :: ps).map Except.ok ++ Except.error e :: rest) off =
          (p ++ (load_facts_loop (ps.map Except.ok ++ Except.error e :: rest)
              (off + page_size)).1,
           off :: (load_facts_loop (ps.map Except.ok ++ Except.error e :: rest)
              (off + page_size)).2) := by
      simp [load_facts_loop, hne, hnlt]
    rw [hloop, hrec]
    simp only [Prod.mk.injEq, List.flatten_cons, List.length_cons]
    constructor
    · trivial
    · conv_rhs => rw [List.range_succ_eq_map]
      simp only [List.map_cons, List.map_map]
      congr 1
      refine List.map_congr_left ?_
      intro i _
      simp only [Function.comp_apply, Nat.succ_eq_add_one]
      ring

/-- C8: gateway failures raised inside the network resolver, the concept loader and
the fact-paging loop are caught, not propagated: the resolver returns `None`, the
concept loader returns `[]`, and the paging loop stops at the failing page while
keeping the rows of every page already received. -/
theorem c8_gateway_failures_recoverable :
    (∀ e : String,
      find_financial_statement_network "Income Statement" (.error e) = none) ∧
    (∀ e : String, load_concepts_and_relationships (.error e) = []) ∧
    (∀ (α : Type) (pages : List (List α)) (e : String)
        (rest : List (Except String (List α))),
      (∀ p ∈ pages, page_size ≤ p.length) →
      load_facts_loop (pages.map Except.ok ++ Except.error e :: rest) 0 =
        (pages.flatten, (List.range (pages.length + 1)).map (fun i => i * page_size))) := by
  refine ⟨fun e => rfl, fun e => rfl, ?_⟩
  intro α pages e rest hfull
  have hmain := load_facts_loop_error_spec pages 0 e rest hfull
  simpa using hmain

/-- Witness for C8 at concrete failures: a failed network search yields `None`, a
failed relationship search yields `[]`, and a failure on the second fact page keeps
the 100 rows of the first page after calls at offsets 0 and 100. -/
theorem c8_gateway_failures_recoverable_witness :
    (find_financial_statement_network "Income Statement" (.error "boom") = none) ∧
    (load_concepts_and_relationships (.error "boom") = []) ∧
    ((∀ p ∈ [List.replicate 100 (0 : Nat)], page_size ≤ p.length) ∧
      load_facts_loop
          ([List.replicate 100 (0 : Nat)].map Except.ok ++
            Except.error "boom" :: []) 0 =
        (List.replicate 100 (0 : Nat), [0, 100])) := by
  have hfull : ∀ p ∈ [List.replicate 100 (0 : Nat)], page_size ≤ p.length := by
    intro p hp
    simp at hp
    simp [hp, page_size]
  refine ⟨c8_gateway_failures_recoverable.1 "boom",
    c8_gateway_failures_recoverable.2.1 "boom", hfull, ?_⟩
  rw [c8_gateway_failures_recoverable.2.2 Nat [List.replicate 100 0] "boom" [] hfull]
  rfl

/-- Helper: the head of the stable descending sort of a non-empty candidate list is
the first candidate attaining the maximal role-description length. -/
theorem sort_desc_head_spec :
    ∀ cands : List NetworkCandidate, cands ≠ [] →
    ∃ pre c post, cands = pre ++ c :: post ∧
      (∃ tail, sort_desc_by_len cands = c :: tail) ∧
      (∀ d ∈ cands, role_len d ≤ role_len c) ∧
      (∀ d ∈ pre, role_len d < role_len c) := by
  intro cands
  induction cands with
  | nil => intro h; exact absurd rfl h
  | cons c0 rest ih =>
    intro _
    by_cases hrest : rest = []
    · subst hrest
      refine ⟨[], c0, [], by simp, ⟨[], rfl⟩, ?_, by simp⟩
      intro d hd
      simp at hd
      simp [hd]
    · obtain ⟨pre1, c1, post1, hdec, ⟨tail1, hsort1⟩, hmax1, hpre1⟩ := ih hrest
      have hstep : sort_desc_by_len (c0 :: rest) = insert_desc c0 (c1 :: tail1) := by
        simp only [sort_desc_by_len, List.foldr_cons]
        rw [← hsort1]
        rfl
      by_cases hlt : role_len c0 < role_len c1
      · refine ⟨c0 :: pre1, c1, post1, by simp [hdec], ?_, ?_, ?_⟩
        · refine ⟨insert_desc c0 tail1, ?_⟩
          rw [hstep]
          simp [insert_desc, hlt]
        · intro d hd
          rcases List.mem_cons.mp hd with rfl | hd2
          · omega
          · exact hmax1 d hd2
        · intro d hd
          rcases List.mem_cons.mp hd with rfl | hd2
          · exact hlt
          · exact hpre1 d hd2
      · refine ⟨[], c0, rest, by simp, ?_, ?_, by simp⟩
        · refine ⟨c1 :: tail1, ?_⟩
          rw [hstep]
          simp [insert_desc, hlt]
        · intro d hd
          rcases List.mem_cons.mp hd with rfl | hd2
          · exact le_refl _
          · exact le_trans (hmax1 d hd2) (by omega)

/-- C6: on an empty candidate list the resolver returns `None`; on a non-empty list
it returns the `network.id` of the candidate whose role-description string is
longest, ties broken in favor of the candidate encountered first in result order. -/
theorem c6_find_network_selects_longest :
    (find_financial_statement_network "Income Statement"
        (.ok ([] : List NetworkCandidate)) = none) ∧
    (∀ cands : List NetworkCandidate, cands ≠ [] →
      ∃ pre c post, cands = pre ++ c :: post ∧
        find_financial_statement_network "Income Statement" (.ok cands) = c.networkId ∧
        (∀ d ∈ cands, role_len d ≤ role_len c) ∧
        (∀ d ∈ pre, role_len d < role_len c)) := by
  refine ⟨rfl, ?_⟩
  intro cands hne
  obtain ⟨pre, c, post, hdec, ⟨tail, hsort⟩, hmax, hpre⟩ := sort_desc_head_spec cands hne
  refine ⟨pre, c, post, hdec, ?_, hmax, hpre⟩
  simp only [find_financial_statement_network, if_neg]
  rw [hsort]
  simp

/-- Witness for C6 at candidates with role-description lengths 4, 9 and 6: the
second candidate (the unique longest) is selected. -/
theorem c6_find_network_selects_longest_witness :
    ([(⟨some "n1", some "rolx"⟩ : NetworkCandidate),
      ⟨some "n2", some "role-long9"⟩, ⟨some "n3", some "role-6"⟩] ≠ []) ∧
    (∃ pre c post,
      [(⟨some "n1", some "rolx"⟩ : NetworkCandidate),
        ⟨some "n2", some "role-long9"⟩, ⟨some "n3", some "role-6"⟩] = pre ++ c :: post ∧
      find_financial_statement_network "Income Statement"
          (.ok [(⟨some "n1", some "rolx"⟩ : NetworkCandidate),
            ⟨some "n2", some "role-long9"⟩, ⟨some "n3", some "role-6"⟩]) = c.networkId ∧
      (∀ d ∈ [(⟨some "n1", some "rolx"⟩ : NetworkCandidate),
          ⟨some "n2", some "role-long9"⟩, ⟨some "n3", some "role-6"⟩],
        role_len d ≤ role_len c) ∧
      (∀ d ∈ pre, role_len d < role_len c)) :=
  ⟨by decide,
    c6_find_network_selects_longest.2
      [⟨some "n1", some "rolx"⟩, ⟨some "n2", some "role-long9"⟩, ⟨some "n3", some "role-6"⟩]
      (by decide)⟩

/-- Helper: the (tree-sequence, tree-depth) order is total. -/
theorem row_le_total (a b : Concept × Option FactRow) :
    row_le a b = true ∨ row_le b a = true := by
  simp only [row_le, Bool.or_eq_true, Bool.and_eq_true, decide_eq_true_eq, beq_iff_eq]
  omega

/-- Helper: the (tree-sequence, tree-depth) order is transitive. -/
theorem row_le_trans {a b c : Concept × Option FactRow}
    (h1 : row_le a b = true) (h2 : row_le b c = true) : row_le a c = true := by
  simp only [row_le, Bool.or_eq_true, Bool.and_eq_true, decide_eq_true_eq,
    beq_iff_eq] at h1 h2 ⊢
  omega

/-- Helper: inserting a row permutes consing it. -/
theorem insert_row_perm (r : Concept × Option FactRow)
    (l : List (Concept × Option FactRow)) : (insert_row r l).Perm (r :: l) := by
  induction l with
  | nil => exact List.Perm.refl _
  | cons x xs ih =>
    by_cases h : row_le r x = true
    · simp only [insert_row, if_pos h]
      exact List.Perm.refl _
    · simp only [insert_row, if_neg h]
      exact (ih.cons x).trans (List.Perm.swap _ _ _)

/-- Helper: sorting the merged rows is a permutation. -/
theorem sort_rows_perm (l : List (Concept × Option FactRow)) :
    (sort_rows l).Perm l := by
  induction l with
  | nil => exact List.Perm.refl _
  | cons x xs ih =>
    simp only [sort_rows, List.foldr_cons] at ih ⊢
    exact (insert_row_perm x _).trans (ih.cons x)

/-- Helper: inserting into a `row_le`-sorted list keeps it sorted. -/
theorem pairwise_insert_row (r : Concept × Option FactRow)
    (l : List (Concept × Option FactRow))
    (h : l.Pairwise (fun a b => row_le a b = true)) :
    (insert_row r l).Pairwise (fun a b => row_le a b = true) := by
  induction l with
  | nil => simp [insert_row]
  | cons x xs ih =>
    rcases List.pairwise_cons.mp h with ⟨hx, hxs⟩
    by_cases hrx : row_le r x = true
    · simp only [insert_row, if_pos hrx]
      refine List.pairwise_cons.mpr ⟨?_, h⟩
      intro b hb
      rcases List.mem_cons.mp hb with rfl | hb2
      · exact hrx
      · exact row_le_trans hrx (hx b hb2)
    · simp only [insert_row, if_neg hrx]
      refine List.pairwise_cons.mpr ⟨?_, ih hxs⟩
      intro b hb
      have hmem : b = r ∨ b ∈ xs := by
        have hb2 := (insert_row_perm r xs).mem_iff.mp hb
        simpa using hb2
      rcases hmem with rfl | hb2
      · rcases row_le_total b x with htot | htot
        · exact absurd htot hrx
        · exact htot
      · exact hx b hb2

/-- Helper: the sorted merged rows are ascending in (tree sequence, tree depth). -/
theorem sort_rows_pairwise (l : List (Concept × Option FactRow)) :
    (sort_rows l).Pairwise (fun a b => row_le a b = true) := by
  induction l with
  | nil => simp [sort_rows]
  | cons x xs ih =>
    simp only [sort_rows, List.foldr_cons] at ih ⊢
    exact pairwise_insert_row x _ ih

/-- C7: `combine_to_dataframe` returns an empty result when either input is empty;
otherwise its result is ascending in (tree sequence, tree depth) and is a
permutation of the left outer join of the concepts onto the facts deduplicated by
full-row equality on the shared concept-id key (the renamed target-concept-id).
On the spec example the row with tree sequence 1 comes before the one with 2. -/
theorem c7_combine_to_dataframe_spec :
    (∀ fs, combine_to_dataframe [] fs = []) ∧
    (∀ cs, combine_to_dataframe cs [] = []) ∧
    (∀ cs fs, (combine_to_dataframe cs fs).Pairwise (fun a b => row_le a b = true)) ∧
    (∀ cs fs, cs ≠ [] → fs ≠ [] →
      (combine_to_dataframe cs fs).Perm (left_join cs (drop_duplicates fs))) ∧
    (combine_to_dataframe
        [⟨1, none, none, none, 1, 2, none⟩, ⟨2, none, none, none, 1, 1, none⟩]
        [⟨some "A", 1, none, none, none, none, none, none, none, none, none⟩,
         ⟨some "B", 2, none, none, none, none, none, none, none, none, none⟩] =
      [(⟨2, none, none, none, 1, 1, none⟩,
          some ⟨some "B", 2, none, none, none, none, none, none, none, none, none⟩),
       (⟨1, none, none, none, 1, 2, none⟩,
          some ⟨some "A", 1, none, none, none, none, none, none, none, none, none⟩)]) := by
  refine ⟨fun fs => rfl, ?_, ?_, ?_, by decide⟩
  · intro cs
    simp [combine_to_dataframe]
  · intro cs fs
    by_cases h : (cs.isEmpty || fs.isEmpty) = true
    · simp [combine_to_dataframe, h]
    · simp only [combine_to_dataframe, if_neg h]
      exact sort_rows_pairwise _
  · intro cs fs hcs hfs
    have h1 : cs.isEmpty = false := by
      rcases cs with _ | _
      · exact absurd rfl hcs
      · rfl
    have h2 : fs.isEmpty = false := by
      rcases fs with _ | _
      · exact absurd rfl hfs
      · rfl
    simp only [combine_to_dataframe, h1, h2, Bool.or_self, if_neg]
    exact sort_rows_perm _

/-- Witness for C7 at a one-concept, one-fact input. -/
theorem c7_combine_to_dataframe_spec_witness :
    (([⟨1, none, none, none, 1, 2, none⟩] : List Concept) ≠ []) ∧
    (([⟨some "A", 1, none, none, none, none, none, none, none, none, none⟩] :
        List FactRow) ≠ []) ∧
    (combine_to_dataframe [⟨1, none, none, none, 1, 2, none⟩]
        [⟨some "A", 1, none, none, none, none, none, none, none, none, none⟩]).Perm
      (left_join [⟨1, none, none, none, 1, 2, none⟩]
        (drop_duplicates
          [⟨some "A", 1, none, none, none, none, none, none, none, none, none⟩])) :=
  ⟨by decide, by decide,
    c7_combine_to_dataframe_spec.2.2.2.1 _ _ (by decide) (by decide)⟩

/-- C9: for every offset, the `fields` query-parameter string the fact loop builds
ends with a doubled comma immediately before the offset directive — the comma-join
of `fact_fields` with an element that itself starts with a comma. -/
theorem c9_fields_param_double_comma (n : Nat) :
    fields_param n =
      "fact.value,concept.id.sort(ASC),concept.is-base,concept.local-name,dimensions.count.sort(ASC),period.fiscal-year.sort(DESC),period.fiscal-period,unit.local-name,dimension.local-name,member.local-name,report.acceptedtimestamp.sort(DESC),,fact.offset("
        ++ toString n ++ ")" := by
  simp [fields_param, fact_fields, String.intercalate, String.intercalate.go,
    String.append_assoc]
  rw [← String.append_assoc]
  rfl

/-- C10: `load_income_statement_data` leaves the whole report unchanged when no
(truthy) network id is found or when no concepts load; when both steps succeed it
changes only `statements`, storing under `'Income Statement'` an entry carrying all
loaded concepts and whatever rows the fact loop accumulated — including the partial
rows kept when a fact page fails. -/
theorem c10_load_income_statement_frame :
    (∀ (r : Report) (net : Except String (List NetworkCandidate))
        (con : Except String (List Concept))
        (facts : List (Except String (List FactRow))),
      (find_financial_statement_network "Income Statement" net = none ∨
        find_financial_statement_network "Income Statement" net = some "") →
      load_income_statement_data r net con facts = r) ∧
    (∀ (r : Report) (net : Except String (List NetworkCandidate))
        (con : Except String (List Concept))
        (facts : List (Except String (List FactRow))),
      load_concepts_and_relationships con = [] →
      load_income_statement_data r net con facts = r) ∧
    (∀ (r : Report) (net : Except String (List NetworkCandidate))
        (con : Except String (List Concept))
        (facts : List (Except String (List FactRow))) (nid : String),
      find_financial_statement_network "Income Statement" net = some nid →
      nid ≠ "" →
      load_concepts_and_relationships con ≠ [] →
      load_income_statement_data r net con facts =
        { r with statements :=
            (dict_insert "Income Statement"
              ({ statementType := "Income Statement"
                 concepts := load_concepts_and_relationships con
                 facts := (load_facts_loop facts 0).1 }) r.statements) }) := by
  refine ⟨?_, ?_, ?_⟩
  · intro r net con facts h
    rcases h with h | h
    · simp [load_income_statement_data, h]
    · simp [load_income_statement_data, h]
  · intro r net con facts hcon
    rcases hfind : find_financial_statement_network "Income Statement" net with _ | nid
    · simp [load_income_statement_data, hfind]
    · by_cases hnid : nid = ""
      · simp [load_income_statement_data, hfind, hnid]
      · simp [load_income_statement_data, hfind, hnid, hcon]
  · intro r net con facts nid hfind hnid hne
    have hemp : (load_concepts_and_relationships con).isEmpty = false := by
      rcases hl : load_concepts_and_relationships con with _ | ⟨a, as⟩
      · exact absurd hl hne
      · rfl
    simp [load_income_statement_data, hfind, hnid, hemp]

/-- Witness for C10: a one-candidate network answer, one concept and one short fact
page produce exactly the statements update described by the theorem. -/
theorem c10_load_income_statement_frame_witness :
    (find_financial_statement_network "Income Statement"
        (.ok [(⟨some "n1", some "role"⟩ : NetworkCandidate)]) = some "n1") ∧
    ("n1" ≠ "") ∧
    (load_concepts_and_relationships
        (.ok [(⟨1, none, none, none, 1, 1, none⟩ : Concept)]) ≠ []) ∧
    (load_income_statement_data
        ⟨none, none, none, none, none, none, none, none, []⟩
        (.ok [(⟨some "n1", some "role"⟩ : NetworkCandidate)])
        (.ok [(⟨1, none, none, none, 1, 1, none⟩ : Concept)])
        [.ok [(⟨some "A", 1, none, none, none, none, none, none, none, none,
          none⟩ : FactRow)]] =
      { (⟨none, none, none, none, none, none, none, none, []⟩ : Report) with
          statements :=
            (dict_insert "Income Statement"
              ({ statementType := "Income Statement"
                 concepts := load_concepts_and_relationships
                   (.ok [(⟨1, none, none, none, 1, 1, none⟩ : Concept)])
                 facts := (load_facts_loop
                   [.ok [(⟨some "A", 1, none, none, none, none, none, none, none,
                     none, none⟩ : FactRow)]] 0).1 })
              (⟨none, none, none, none, none, none, none, none,
                []⟩ : Report).statements) }) :=
  ⟨by decide, by decide, by decide,
    c10_load_income_statement_frame.2.2
      ⟨none, none, none, none, none, none, none, none, []⟩
      (.ok [⟨some "n1", some "role"⟩])
      (.ok [⟨1, none, none, none, 1, 1, none⟩])
      [.ok [⟨some "A", 1, none, none, none, none, none, none, none, none, none⟩]]
      "n1" (by decide) (by decide) (by decide)⟩

/-- Witness for C4 at issuance time 0 with `expires_in = 3600`. -/
theorem c4_request_new_token_expiry_witness :
    (⟨some "t", some 3600⟩ : TokenResponse).expiresIn = some 3600 ∧
    (request_new_token 0 ⟨some "t", some 3600⟩).tokenExpiryTime = some 3300 :=
  ⟨rfl, by simpa using (c4_request_new_token_expiry 0 ⟨some "t", some 3600⟩).2.2.1 rfl⟩

end StockAnalysis
